import Mathlib

/-!
Verification development for the MediCredit AI frontend
(`src/medicredit-ai/frontend`): the React pages `PatientPortal` and
`ProviderDashboard` (tab switchers), the `Layout` navigation highlight,
and the `App` router.  Each React component referenced by the pages is an
opaque leaf; the tab tables, the active-component lookup, the
path-prefix highlight and the route table are translated directly from
the TypeScript source.
-/

namespace MediCredit

/-- The child React components imported by the two pages.  Their internals
are irrelevant to the pages' selection logic, so they are opaque leaves. -/
inductive Component where
  | CostEstimator
  | BillAnalysis
  | AssistanceFinder
  | RiskDashboard
  | DenialRiskScorer
  | ClaimQA
  | RevenueAnalytics
  | CodingRecommendations
deriving DecidableEq, Repr

/-- One entry of a page's `tabs` array: `{ id, label, component }`. -/
structure Tab where
  id : String
  label : String
  component : Component
deriving DecidableEq, Repr

/-- `PatientPortal`'s `tabs` array (PatientPortal.tsx). -/
def patientTabs : List Tab :=
  [ { id := "estimate", label := "Cost Estimator", component := .CostEstimator },
    { id := "bill", label := "Bill Analysis", component := .BillAnalysis },
    { id := "assistance", label := "Find Assistance", component := .AssistanceFinder },
    { id := "risk", label := "Risk Dashboard", component := .RiskDashboard } ]

/-- `ProviderDashboard`'s `tabs` array (ProviderDashboard.tsx). -/
def providerTabs : List Tab :=
  [ { id := "denial", label := "Denial Risk Scorer", component := .DenialRiskScorer },
    { id := "qa", label := "Claim QA", component := .ClaimQA },
    { id := "analytics", label := "Revenue Analytics", component := .RevenueAnalytics },
    { id := "coding", label := "Coding Recommendations", component := .CodingRecommendations } ]

/-- `useState('estimate')` in PatientPortal.tsx. -/
def patientInitialTab : String := "estimate"

/-- `useState('denial')` in ProviderDashboard.tsx. -/
def providerInitialTab : String := "denial"

/-- `tabs.find(t => t.id === activeTab)?.component || fallback`: the
component a page renders for the current `activeTab` value.  The tab
components are (truthy) function components, so the `||` fallback fires
exactly when `find` returns `undefined`. -/
def activeComponent (tabs : List Tab) (fallback : Component) (activeTab : String) : Component :=
  match tabs.find? (fun t => t.id == activeTab) with
  | some t => t.component
  | none => fallback

/-- `PatientPortal`'s `ActiveComponent` as a function of `activeTab`
(fallback `CostEstimator`). -/
def patientActiveComponent (activeTab : String) : Component :=
  activeComponent patientTabs .CostEstimator activeTab

/-- `ProviderDashboard`'s `ActiveComponent` as a function of `activeTab`
(fallback `DenialRiskScorer`). -/
def providerActiveComponent (activeTab : String) : Component :=
  activeComponent providerTabs .DenialRiskScorer activeTab

/-- Clicking the tab button rendered for index `i` of the `tabs` array
runs `setActiveTab(tab.id)`; indices with no button leave the state
unchanged. -/
def clickTab (tabs : List Tab) (state : String) (i : Nat) : String :=
  match tabs[i]? with
  | some t => t.id
  | none => state

/-- The `activeTab` state after a sequence of button clicks (each click
given by the index of the clicked tab button). -/
def runClicks (tabs : List Tab) (state : String) : List Nat → String
  | [] => state
  | i :: is => runClicks tabs (clickTab tabs state i) is

/-- The pair of highlight flags computed by `Layout`
(`isPatient`, `isProvider`). -/
structure HighlightState where
  isPatient : Bool
  isProvider : Bool
deriving DecidableEq, Repr

/-- `location.pathname.startsWith('/patient')` /
`location.pathname.startsWith('/provider')` in Layout.tsx, as
character-list prefix tests. -/
def layoutHighlight (pathname : String) : HighlightState :=
  { isPatient := "/patient".toList.isPrefixOf pathname.toList,
    isProvider := "/provider".toList.isPrefixOf pathname.toList }

/-- What a matched `<Route>` renders: a page, or a `<Navigate>` redirect. -/
inductive RouteElement where
  | pagePatient : RouteElement
  | pageProvider : RouteElement
  | navigate : String → RouteElement
deriving DecidableEq, Repr

/-- The `<Routes>` table of App.tsx: pattern strings paired with their
elements, in source order. -/
def routes : List (String × RouteElement) :=
  [ ("/", .navigate "/patient"),
    ("/patient/*", .pagePatient),
    ("/provider/*", .pageProvider) ]

/-- Split a path or pattern on `/` into its non-empty segments (React
Router normalises away empty segments), accumulating the current
segment's characters in reverse. -/
def segsAux : List Char → List Char → List String
  | [], acc => if acc.isEmpty then [] else [String.mk acc.reverse]
  | c :: cs, acc =>
    if c = '/' then
      (if acc.isEmpty then [] else [String.mk acc.reverse]) ++ segsAux cs []
    else segsAux cs (c :: acc)

/-- The segments of a URL path (or of a route pattern). -/
def pathSegments (p : String) : List String := segsAux p.toList []

/-- React Router segment matching: segments must agree pairwise, and a
trailing `*` splat matches any remainder (including none). -/
def segmentsMatch : List String → List String → Bool
  | [], [] => true
  | ["*"], _ => true
  | pat :: pats, seg :: segs => pat == seg && segmentsMatch pats segs
  | _, _ => false

/-- The element of the first route whose pattern matches the path, if any. -/
def matchRoute (p : String) : Option RouteElement :=
  (routes.find? (fun r => segmentsMatch (pathSegments r.1) (pathSegments p))).map (·.2)

/-- Which page the router shows for a path, following one `<Navigate>`
redirect. -/
def renderedPage (p : String) : Option RouteElement :=
  match matchRoute p with
  | some (.navigate target) => matchRoute target
  | other => other

/-! Helper lemmas shared by the claim theorems. -/

lemma find?_eq_none_of_not_mem_id (tabs : List Tab) (s : String)
    (h : s ∉ tabs.map Tab.id) : tabs.find? (fun t => t.id == s) = none := by
  rw [List.find?_eq_none]
  intro t ht
  simp only [beq_iff_eq]
  intro he
  exact h (he ▸ List.mem_map_of_mem Tab.id ht)

lemma activeComponent_of_not_mem (tabs : List Tab) (fb : Component) (s : String)
    (h : s ∉ tabs.map Tab.id) : activeComponent tabs fb s = fb := by
  unfold activeComponent
  rw [find?_eq_none_of_not_mem_id tabs s h]

lemma clickTab_mem (tabs : List Tab) (state : String) (i : Nat)
    (h : state ∈ tabs.map Tab.id) : clickTab tabs state i ∈ tabs.map Tab.id := by
  unfold clickTab
  match hg : tabs[i]? with
  | some t => exact List.mem_map_of_mem Tab.id (List.getElem?_mem hg)
  | none => exact h

lemma runClicks_mem (tabs : List Tab) (clicks : List Nat) (state : String)
    (h : state ∈ tabs.map Tab.id) : runClicks tabs state clicks ∈ tabs.map Tab.id := by
  induction clicks generalizing state with
  | nil => exact h
  | cons i is ih => exact ih _ (clickTab_mem tabs state i h)

lemma clickTab_self (tabs : List Tab) (t : Tab) (i : Nat) (h : tabs[i]? = some t) :
    clickTab tabs t.id i = t.id := by
  unfold clickTab
  rw [h]

lemma pathSegments_rootPat : pathSegments ("/") = [] := by decide

lemma pathSegments_patientPat : pathSegments ("/patient/*") = ["patient", "*"] := by decide

lemma pathSegments_providerPat : pathSegments ("/provider/*") = ["provider", "*"] := by decide

lemma segmentsMatch_nil_cons (s : String) (rest : List String) :
    segmentsMatch [] (s :: rest) = false := rfl

lemma segmentsMatch_pair_splat (x s : String) (rest : List String) :
    segmentsMatch [x, "*"] (s :: rest) = (x == s) := by
  simp [segmentsMatch]

/-! Claim theorems. -/

/-- C1: for every tab entry of a page's enumerated tabs list, when the
active-tab selection equals its identifier, the component-selection
function returns exactly that entry's component, and never the component
of an entry with a different identifier, in both PatientPortal and
ProviderDashboard. -/
theorem tab_selection_exact :
    (∀ t ∈ patientTabs, patientActiveComponent t.id = t.component) ∧
    (∀ t ∈ providerTabs, providerActiveComponent t.id = t.component) ∧
    (∀ t ∈ patientTabs, ∀ u ∈ patientTabs, u.id ≠ t.id →
      patientActiveComponent t.id ≠ u.component) ∧
    (∀ t ∈ providerTabs, ∀ u ∈ providerTabs, u.id ≠ t.id →
      providerActiveComponent t.id ≠ u.component) := by
  decide

/-- Witness for C1 at the concrete tabs `bill` and `qa`. -/
theorem tab_selection_exact_witness :
    patientActiveComponent ("bill") = Component.BillAnalysis ∧
    providerActiveComponent ("qa") = Component.ClaimQA :=
  ⟨tab_selection_exact.1 ⟨"bill", "Bill Analysis", .BillAnalysis⟩ (by decide),
   tab_selection_exact.2.1 ⟨"qa", "Claim QA", .ClaimQA⟩ (by decide)⟩

/-- C2: for every identifier not among a page's enumerated tab
identifiers, the lookup over the tabs list returns the documented
default: CostEstimator for PatientPortal, DenialRiskScorer for
ProviderDashboard. -/
theorem unknown_selection_falls_back (s : String) :
    (s ∉ patientTabs.map Tab.id → patientActiveComponent s = Component.CostEstimator) ∧
    (s ∉ providerTabs.map Tab.id → providerActiveComponent s = Component.DenialRiskScorer) :=
  ⟨fun h => activeComponent_of_not_mem patientTabs Component.CostEstimator s h,
   fun h => activeComponent_of_not_mem providerTabs Component.DenialRiskScorer s h⟩

/-- Witness for C2 at the concrete unknown identifier `nope`. -/
theorem unknown_selection_falls_back_witness :
    patientActiveComponent ("nope") = Component.CostEstimator ∧
    providerActiveComponent ("nope") = Component.DenialRiskScorer :=
  ⟨(unknown_selection_falls_back ("nope")).1 (by decide),
   (unknown_selection_falls_back ("nope")).2 (by decide)⟩

/-- C3: for every path, the Patient Portal link is highlighted exactly
when the path has prefix `/patient` and the Provider Dashboard link
exactly when it has prefix `/provider`, and the two are never
highlighted together. -/
theorem layout_highlight_exact (p : String) :
    ((layoutHighlight p).isPatient = true ↔ "/patient".toList <+: p.toList) ∧
    ((layoutHighlight p).isProvider = true ↔ "/provider".toList <+: p.toList) ∧
    ¬((layoutHighlight p).isPatient = true ∧ (layoutHighlight p).isProvider = true) := by
  refine ⟨ List.isPrefixOf_iff_prefix, List.isPrefixOf_iff_prefix, ?_⟩
  rintro ⟨h1, h2⟩
  have hp := List.isPrefixOf_iff_prefix.mp h1
  have hq := List.isPrefixOf_iff_prefix.mp h2
  have hcon := List.prefix_of_prefix_length_le hp hq (by decide)
  revert hcon
  decide

/-- Witness for C3 at the concrete path `/patient/x`. -/
theorem layout_highlight_exact_witness :
    ((layoutHighlight ("/patient/x")).isPatient = true ↔
      "/patient".toList <+: "/patient/x".toList) ∧
    ¬((layoutHighlight ("/patient/x")).isPatient = true ∧
      (layoutHighlight ("/patient/x")).isProvider = true) :=
  ⟨(layout_highlight_exact ("/patient/x")).1, (layout_highlight_exact ("/patient/x")).2.2⟩

/-- C5: the router shows PatientPortal for every path whose first
segment is `patient`, ProviderDashboard for every path whose first
segment is `provider`, and PatientPortal for the root path `/` via the
redirect to `/patient`. -/
theorem router_mapping (p : String) :
    ((pathSegments p).head? = some "patient" →
      renderedPage p = some RouteElement.pagePatient) ∧
    ((pathSegments p).head? = some "provider" →
      renderedPage p = some RouteElement.pageProvider) ∧
    renderedPage ("/") = some RouteElement.pagePatient := by
  refine ⟨fun h => ?_, fun h => ?_, by decide⟩
  · match hl : pathSegments p with
    | [] => rw [hl] at h; simp at h
    | s :: rest =>
      rw [hl] at h
      simp only [List.head?_cons, Option.some.injEq] at h
      subst h
      simp [renderedPage, matchRoute, routes, List.find?, hl,
        pathSegments_rootPat, pathSegments_patientPat, pathSegments_providerPat,
        segmentsMatch_nil_cons, segmentsMatch_pair_splat]
  · match hl : pathSegments p with
    | [] => rw [hl] at h; simp at h
    | s :: rest =>
      rw [hl] at h
      simp only [List.head?_cons, Option.some.injEq] at h
      subst h
      simp [renderedPage, matchRoute, routes, List.find?, hl,
        pathSegments_rootPat, pathSegments_patientPat, pathSegments_providerPat,
        segmentsMatch_nil_cons, segmentsMatch_pair_splat]

/-- Witness for C5 at the concrete paths `/patient/claims` and
`/provider/stats`. -/
theorem router_mapping_witness :
    renderedPage ("/patient/claims") = some RouteElement.pagePatient ∧
    renderedPage ("/provider/stats") = some RouteElement.pageProvider ∧
    renderedPage ("/") = some RouteElement.pagePatient :=
  ⟨(router_mapping ("/patient/claims")).1 (by decide),
   (router_mapping ("/provider/stats")).2.1 (by decide),
   (router_mapping ("/")).2.2⟩

/-- C4: the pages' initial active-tab values are the identifiers mapped
to CostEstimator and DenialRiskScorer respectively, so those components
render by default. -/
theorem initial_tab_defaults :
    patientInitialTab = "estimate" ∧ providerInitialTab = "denial" ∧
    (∃ t ∈ patientTabs, t.id = patientInitialTab ∧ t.component = Component.CostEstimator) ∧
    (∃ t ∈ providerTabs, t.id = providerInitialTab ∧ t.component = Component.DenialRiskScorer) ∧
    patientActiveComponent patientInitialTab = Component.CostEstimator ∧
    providerActiveComponent providerInitialTab = Component.DenialRiskScorer := by
  decide

/-- C6: after any sequence of tab-button clicks from the initial state,
each page's active-tab selection is still one of that page's enumerated
tab identifiers. -/
theorem selection_stays_enumerated (clicks : List Nat) :
    runClicks patientTabs patientInitialTab clicks ∈ patientTabs.map Tab.id ∧
    runClicks providerTabs providerInitialTab clicks ∈ providerTabs.map Tab.id :=
  ⟨runClicks_mem patientTabs clicks patientInitialTab (by decide),
   runClicks_mem providerTabs clicks providerInitialTab (by decide)⟩

/-- C7: the Layout highlight computation is a pure, total function of the
URL path: equal paths give equal highlight states, and on every path it
is exactly the pair of prefix flags, with no other dependency or failure
mode. -/
theorem layout_highlight_pure (p q : String) (h : p = q) :
    layoutHighlight p = layoutHighlight q ∧
    layoutHighlight p = { isPatient := "/patient".toList.isPrefixOf p.toList,
                          isProvider := "/provider".toList.isPrefixOf p.toList } := by
  subst h
  exact ⟨rfl, rfl⟩

/-- Witness for C7 at the concrete path `/patient`. -/
theorem layout_highlight_pure_witness :
    layoutHighlight ("/patient") = layoutHighlight ("/patient") :=
  (layout_highlight_pure ("/patient") ("/patient") rfl).1

/-- C8: the path `/patientfoo` makes Layout highlight the Patient Portal
link by raw prefix match although the router matches no route for it,
and `/providerfoo` does the same for the provider link. -/
theorem highlight_router_divergence :
    (layoutHighlight ("/patientfoo")).isPatient = true ∧
    matchRoute ("/patientfoo") = none ∧
    (layoutHighlight ("/providerfoo")).isProvider = true ∧
    matchRoute ("/providerfoo") = none := by
  decide

/-- C9: clicking the button of the already-active tab leaves the
selection and the rendered component unchanged, in both pages. -/
theorem click_idempotent (i : Nat) (t : Tab) :
    (patientTabs[i]? = some t →
      clickTab patientTabs t.id i = t.id ∧
      patientActiveComponent (clickTab patientTabs t.id i) = patientActiveComponent t.id) ∧
    (providerTabs[i]? = some t →
      clickTab providerTabs t.id i = t.id ∧
      providerActiveComponent (clickTab providerTabs t.id i) = providerActiveComponent t.id) := by
  refine ⟨fun h => ?_, fun h => ?_⟩ <;>
    exact ⟨clickTab_self _ t i h, by rw [clickTab_self _ t i h]⟩

/-- Witness for C9 at index 1 of the patient tabs (the `bill` tab). -/
theorem click_idempotent_witness :
    clickTab patientTabs ("bill") 1 = "bill" ∧
    patientActiveComponent (clickTab patientTabs ("bill") 1) = patientActiveComponent ("bill") :=
  (click_idempotent 1 ⟨"bill", "Bill Analysis", .BillAnalysis⟩).1 (by decide)

/-- C10: each page's fallback component coincides with the component of
its initial tab, so an unrecognized selection renders the same view as
the initial default selection. -/
theorem fallback_equals_initial (s : String) :
    (s ∉ patientTabs.map Tab.id →
      patientActiveComponent s = patientActiveComponent patientInitialTab) ∧
    (s ∉ providerTabs.map Tab.id →
      providerActiveComponent s = providerActiveComponent providerInitialTab) ∧
    patientActiveComponent patientInitialTab = Component.CostEstimator ∧
    providerActiveComponent providerInitialTab = Component.DenialRiskScorer := by
  refine ⟨fun h => ?_, fun h => ?_, by decide, by decide⟩
  · unfold patientActiveComponent
    rw [activeComponent_of_not_mem patientTabs Component.CostEstimator s h]
    decide
  · unfold providerActiveComponent
    rw [activeComponent_of_not_mem providerTabs Component.DenialRiskScorer s h]
    decide

/-- Witness for C10 at the concrete unknown identifier `zzz`. -/
theorem fallback_equals_initial_witness :
    patientActiveComponent ("zzz") = patientActiveComponent patientInitialTab ∧
    providerActiveComponent ("zzz") = providerActiveComponent providerInitialTab :=
  ⟨(fallback_equals_initial ("zzz")).1 (by decide),
   (fallback_equals_initial ("zzz")).2.1 (by decide)⟩

end MediCredit
